import Mathlib

/--
Verification development for the rcon-srcds Source RCON client.
The Session layer is embedded from src/src/rcon.js; the packet codec
(src/packet.js) and the protocol constants (src/protocol.js) are required by
rcon.js but absent from the repository snapshot, so they are modelled from the
specification (sections 4.1 and 6). Strings are modelled as their encoded byte
sequences (lists of naturals), so the ascii/utf8 text-codec parameter of the
JavaScript functions is already applied and does not appear.
-/
def rconSrcdsOverview : String := "rcon-srcds verification"

namespace RconSrcds

namespace Protocol

/-- Modelled from the spec: src/protocol.js is missing; message type of an
authentication request, `AUTH = 3` (spec section 6). -/
def SERVERDATA_AUTH : Int := 3

/-- Modelled from the spec: src/protocol.js is missing; message type of an
authentication response, `AUTH_RESPONSE = 2` (spec section 6). -/
def SERVERDATA_AUTH_RESPONSE : Int := 2

/-- Modelled from the spec: src/protocol.js is missing; message type of a
command request, `EXECCOMMAND = 2` (spec section 6). -/
def SERVERDATA_EXECCOMMAND : Int := 2

/-- Modelled from the spec: src/protocol.js is missing; message type of a
command response, `RESPONSE_VALUE = 0` (spec section 6). -/
def SERVERDATA_RESPONSE_VALUE : Int := 0

/-- Modelled from the spec: src/protocol.js is missing; the request id used for
the AUTH packet is described only as implementation-chosen (spec section 4.3),
and no claim depends on its value. -/
def ID_AUTH : Int := 0

end Protocol

namespace Packet

/-- The unsigned 32-bit representative of a signed 32-bit integer, as stored by
a little-endian `writeInt32LE`: the value taken modulo `2 ^ 32`. -/
def toUInt32 (v : Int) : Nat := (v % 4294967296).toNat

/-- Modelled from the spec: src/packet.js is missing; the four little-endian
bytes of a signed 32-bit integer (spec section 6, all integers little-endian
signed 32-bit). -/
def int32ToLE (v : Int) : List Nat :=
  [toUInt32 v % 256, toUInt32 v / 256 % 256,
   toUInt32 v / 65536 % 256, toUInt32 v / 16777216 % 256]

/-- Recombine four little-endian bytes into the unsigned 32-bit value. -/
def leToNat (b0 b1 b2 b3 : Nat) : Nat :=
  b0 + 256 * b1 + 65536 * b2 + 16777216 * b3

/-- Reinterpret an unsigned 32-bit value as a signed 32-bit integer, the way
`readInt32LE` does. -/
def natToInt32 (n : Nat) : Int :=
  if n < 2147483648 then (n : Int) else (n : Int) - 4294967296

/-- Strip a single trailing newline byte if present, and nothing else: the
spec (section 4.1) has `decode` trim exactly one trailing `\n` from the body. -/
def trimOneNewline (l : List Nat) : List Nat :=
  if l.getLast? = some 10 then l.dropLast else l

/-- Modelled from the spec: src/packet.js is missing; `encode(type, id, body)`
produces `size` (little-endian int32, value `4 + 4 + len(body) + 2`), then
`id`, then `type`, then the body bytes, then a `0x00` terminator and one more
zero byte (spec sections 4.1 and 6). -/
def encode (ptype pid : Int) (body : List Nat) : List Nat :=
  int32ToLE (4 + 4 + (body.length : Int) + 2) ++
    (int32ToLE pid ++ (int32ToLE ptype ++ (body ++ [0, 0])))

/-- A decoded packet: the three header integers and the body bytes. -/
structure Decoded where
  size : Int
  id : Int
  type : Int
  body : List Nat
deriving DecidableEq, Repr

/-- Modelled from the spec: src/packet.js is missing; `decode(bytes)` reads the
three 4-byte little-endian signed integers positionally, takes the remainder up
to but excluding the two trailing terminator bytes as the body, and trims a
single trailing newline from it (spec section 4.1). The spec's decoder trusts
the transport to deliver one complete frame; inputs shorter than the 12-byte
header (on which the JavaScript buffer read would throw, and which no claim
involves) are totalized to a zero packet. -/
def decode (l : List Nat) : Decoded :=
  match l with
  | s0 :: s1 :: s2 :: s3 :: i0 :: i1 :: i2 :: i3 :: t0 :: t1 :: t2 :: t3 :: rest =>
    { size := natToInt32 (leToNat s0 s1 s2 s3)
      id := natToInt32 (leToNat i0 i1 i2 i3)
      type := natToInt32 (leToNat t0 t1 t2 t3)
      body := trimOneNewline (rest.take (rest.length - 2)) }
  | _ => { size := 0, id := 0, type := 0, body := [] }

/-- Reading back the little-endian bytes of an in-range signed 32-bit integer
recovers it. -/
lemma natToInt32_leToNat_toUInt32 (v : Int)
    (h1 : -2147483648 ≤ v) (h2 : v < 2147483648) :
    natToInt32 (leToNat (toUInt32 v % 256) (toUInt32 v / 256 % 256)
      (toUInt32 v / 65536 % 256) (toUInt32 v / 16777216 % 256)) = v := by
  have h3 : (0 : Int) ≤ v % 4294967296 := Int.emod_nonneg v (by norm_num)
  have h4 : v % 4294967296 < 4294967296 := Int.emod_lt_of_pos v (by norm_num)
  unfold toUInt32 natToInt32 leToNat
  split <;> omega

/-- Taking the length of the left list from an append returns the left list. -/
lemma take_append_self (l r : List Nat) : (l ++ r).take l.length = l := by
  induction l with
  | nil => simp
  | cons a as ih => simp [ih]

/-- The encoded frame, written out as twelve header bytes in front of the body
and the two trailing zero bytes. -/
lemma encode_cons (t i : Int) (b : List Nat) :
    encode t i b =
      toUInt32 (4 + 4 + (b.length : Int) + 2) % 256 ::
      toUInt32 (4 + 4 + (b.length : Int) + 2) / 256 % 256 ::
      toUInt32 (4 + 4 + (b.length : Int) + 2) / 65536 % 256 ::
      toUInt32 (4 + 4 + (b.length : Int) + 2) / 16777216 % 256 ::
      toUInt32 i % 256 :: toUInt32 i / 256 % 256 ::
      toUInt32 i / 65536 % 256 :: toUInt32 i / 16777216 % 256 ::
      toUInt32 t % 256 :: toUInt32 t / 256 % 256 ::
      toUInt32 t / 65536 % 256 :: toUInt32 t / 16777216 % 256 ::
      (b ++ [0, 0]) := rfl

/-- Decoding an explicit twelve-byte header plus remainder. -/
lemma decode_cons (s0 s1 s2 s3 i0 i1 i2 i3 t0 t1 t2 t3 : Nat) (rest : List Nat) :
    decode (s0 :: s1 :: s2 :: s3 :: i0 :: i1 :: i2 :: i3 ::
        t0 :: t1 :: t2 :: t3 :: rest) =
      { size := natToInt32 (leToNat s0 s1 s2 s3)
        id := natToInt32 (leToNat i0 i1 i2 i3)
        type := natToInt32 (leToNat t0 t1 t2 t3)
        body := trimOneNewline (rest.take (rest.length - 2)) } := rfl

/-- The body recovered by `decode` from an encoded frame is the original body
with a single trailing newline trimmed; no integer-range hypotheses needed. -/
lemma decode_encode_body (t i : Int) (b : List Nat) :
    (decode (encode t i b)).body = trimOneNewline b := by
  rw [encode_cons, decode_cons]
  have hlen : (b ++ [0, 0]).length - 2 = b.length := by simp
  simp only [hlen]
  congr 1
  exact take_append_self b [0, 0]

/-- The type recovered by `decode` from an encoded frame. -/
lemma decode_encode_type (t i : Int) (b : List Nat)
    (h1 : -2147483648 ≤ t) (h2 : t < 2147483648) :
    (decode (encode t i b)).type = t := by
  rw [encode_cons, decode_cons]
  exact natToInt32_leToNat_toUInt32 t h1 h2

/-- The id recovered by `decode` from an encoded frame. -/
lemma decode_encode_id (t i : Int) (b : List Nat)
    (h1 : -2147483648 ≤ i) (h2 : i < 2147483648) :
    (decode (encode t i b)).id = i := by
  rw [encode_cons, decode_cons]
  exact natToInt32_leToNat_toUInt32 i h1 h2

/-- The size recovered by `decode` from an encoded frame. -/
lemma decode_encode_size (t i : Int) (b : List Nat)
    (h : (b.length : Int) + 10 < 2147483648) :
    (decode (encode t i b)).size = 4 + 4 + (b.length : Int) + 2 := by
  rw [encode_cons, decode_cons]
  exact natToInt32_leToNat_toUInt32 _ (by omega) (by omega)

/-- Length of an encoded frame: twelve header bytes, the body, two zeros. -/
lemma encode_length (t i : Int) (b : List Nat) :
    (encode t i b).length = b.length + 14 := by
  rw [encode_cons]
  simp

/-- Trimming a body that ends in a newline byte drops exactly that byte. -/
lemma trimOneNewline_concat (c : List Nat) :
    trimOneNewline (c ++ [10]) = c := by
  unfold trimOneNewline
  rw [if_pos (by simp)]
  simp

/-- Trimming a body that does not end in a newline byte leaves it unchanged. -/
lemma trimOneNewline_of_no_newline (l : List Nat) (h : l.getLast? ≠ some 10) :
    trimOneNewline l = l := by
  unfold trimOneNewline
  rw [if_neg h]

end Packet

/-- Construction options of the SourceRCON class (src/src/rcon.js lines
22-56). `none` models an omitted option; a supplied JavaScript value is
`some v`, where the falsy values expressible in this model are `0` for the
numeric options and the empty string for the textual ones. -/
structure Options where
  host : Option String
  port : Option Nat
  maximumPacketSize : Option Nat
  encoding : Option String
  timeout : Option Nat
deriving DecidableEq

/-- JavaScript `options.x || d` for a numeric option: an absent or falsy
(zero) value yields the default. -/
def orDefaultNum (o : Option Nat) (d : Nat) : Nat :=
  match o with
  | none => d
  | some v => if v = 0 then d else v

/-- JavaScript `options.x || d` for a string option: an absent or falsy
(empty) value yields the default. -/
def orDefaultStr (o : Option String) (d : String) : String :=
  match o with
  | none => d
  | some v => if v = "" then d else v

/-- The Session state: the configuration fields set by the constructor and the
`authenticated` flag (src/src/rcon.js lines 22-83). The socket handle itself
is external; its observable interactions are modelled per operation. -/
structure Session where
  host : String
  port : Nat
  maximumPacketSize : Nat
  encoding : String
  timeout : Nat
  authenticated : Bool
deriving DecidableEq

/-- The SourceRCON constructor (src/src/rcon.js lines 22-83): every option is
defaulted through `||`, and `authenticated` starts `false`. -/
def SourceRCON.construct (o : Options) : Session :=
  { host := orDefaultStr o.host "127.0.0.1"
    port := orDefaultNum o.port 27015
    maximumPacketSize := orDefaultNum o.maximumPacketSize 4096
    encoding := orDefaultStr o.encoding "ascii"
    timeout := orDefaultNum o.timeout 1000
    authenticated := false }

/-- The regular-expression replacement on src/src/rcon.js line 160,
`body.replace(/\n$/, '\n')`: a trailing newline byte is replaced by a newline
byte. (As written in the code this substitution changes nothing.) -/
def replaceTrailingNewline (l : List Nat) : List Nat :=
  if l.getLast? = some 10 then l.dropLast ++ [10] else l

/-- The replacement on line 160 is the identity: it substitutes a newline for
the trailing newline it matched. -/
lemma replaceTrailingNewline_eq_self (l : List Nat) :
    replaceTrailingNewline l = l := by
  unfold replaceTrailingNewline
  split
  · case isTrue h =>
      have hne : l ≠ [] := by
        intro hnil
        rw [hnil] at h
        simp at h
      have hlast : l.getLast hne = 10 := by
        have := List.getLast?_eq_getLast l hne
        rw [this] at h
        exact (Option.some_inj.mp h)
      calc l.dropLast ++ [10] = l.dropLast ++ [l.getLast hne] := by rw [hlast]
        _ = l := List.dropLast_append_getLast hne
  · rfl

/-- What the one value resolved by a `write` call's promise can be: `failed`
and `success` for the authentication branches, or the response body for the
command branch (src/src/rcon.js lines 144-168). -/
inductive WriteResult where
  | failed
  | success
  | response (body : List Nat)
deriving DecidableEq

/-- One firing of the `onData` handler registered by `write` (src/src/rcon.js
lines 144-168): the value it resolves with, and whether it detached the data
and error listeners before returning. The auth early-fail branch (lines
149-151) returns before either `removeListener` call; the other two branches
remove the data listener and fall through to remove the error listener. -/
structure OnDataStep where
  result : WriteResult
  dataRemoved : Bool
  errorRemoved : Bool
deriving DecidableEq

/-- The `onData` handler of `write` (src/src/rcon.js lines 144-168), as a
function of the type of the packet the `write` call sent and of the delivered
bytes. -/
def writeOnData (writeType : Int) (delivery : List Nat) : OnDataStep :=
  let d := Packet.decode delivery
  if writeType = Protocol.SERVERDATA_AUTH ∧
      d.type ≠ Protocol.SERVERDATA_AUTH_RESPONSE then
    { result := .failed, dataRemoved := false, errorRemoved := false }
  else if writeType = Protocol.SERVERDATA_AUTH ∧
      d.type = Protocol.SERVERDATA_AUTH_RESPONSE then
    { result := if d.id ≠ -1 then .success else .failed
      dataRemoved := true, errorRemoved := true }
  else
    { result := .response (replaceTrailingNewline d.body)
      dataRemoved := true, errorRemoved := true }

/-- The send half of `write` (src/src/rcon.js lines 175-182): whether the
encoded packet tripped the `maximumPacketSize` check (rejecting the promise),
and the bytes handed to `connection.write`. The reject on line 178 is not
followed by a return, so line 182 writes the packet in every case. -/
structure WriteAttempt where
  rejectedPacketTooLong : Bool
  bytesWritten : List Nat
deriving DecidableEq

/-- The send half of `write` (src/src/rcon.js lines 175-182). -/
def writeSend (mps : Nat) (ptype pid : Int) (body : List Nat) : WriteAttempt :=
  let encoded := Packet.encode ptype pid body
  { rejectedPacketTooLong := decide (0 < mps ∧ mps < encoded.length)
    bytesWritten := encoded }

/-- What a call to `authenticate` reports: the first settlement of its promise
(src/src/rcon.js lines 90-108), with `write` failures folded in. -/
inductive AuthReport where
  | alreadyAuthenticated
  | packetTooLong
  | success
  | unableToAuthenticate
deriving DecidableEq

/-- The observable outcome of one `authenticate` call resolved by one data
delivery: the report, the bytes the `write` primitive handed to the socket,
and the session state afterwards (src/src/rcon.js lines 90-108 and 141-184). -/
structure AuthRun where
  report : AuthReport
  authWriteBytes : List Nat
  finalAuthenticated : Bool
  disconnected : Bool
deriving DecidableEq

/-- One run of `authenticate(password)` whose `write` promise is settled by
`firstDelivery`, the first data event after the AUTH packet is sent
(src/src/rcon.js lines 90-108). The `reject` on line 93 has no return, so the
AUTH packet is written even when already authenticated, and only the first
settlement of the promise (the report) reflects that rejection; the `write` on
line 96 encodes and unconditionally sends the packet (line 182), rejecting
first if it exceeds `maximumPacketSize` (lines 177-178), in which case its
`then` continuation never runs and the session state is untouched; otherwise
the first delivery resolves `write` through `onData` (lines 149-157), and
`authenticate` sets `authenticated` on success or disconnects on failure
(lines 97-105). -/
def authenticateRun (s : Session) (password : List Nat)
    (firstDelivery : List Nat) : AuthRun :=
  let encoded := Packet.encode Protocol.SERVERDATA_AUTH Protocol.ID_AUTH password
  let rep (r : AuthReport) : AuthReport :=
    if s.authenticated then .alreadyAuthenticated else r
  if 0 < s.maximumPacketSize ∧ s.maximumPacketSize < encoded.length then
    { report := rep .packetTooLong
      authWriteBytes := encoded
      finalAuthenticated := s.authenticated
      disconnected := false }
  else
    let d := Packet.decode firstDelivery
    if d.type = Protocol.SERVERDATA_AUTH_RESPONSE ∧ d.id ≠ -1 then
      { report := rep .success
        authWriteBytes := encoded
        finalAuthenticated := true
        disconnected := false }
    else
      { report := rep .unableToAuthenticate
        authWriteBytes := encoded
        finalAuthenticated := false
        disconnected := true }

/-- The synchronous part of one `execute(command)` call (src/src/rcon.js lines
191-207): the two precondition rejections (lines 194-198, neither followed by
a return), the unconditional enqueue on the sequencer (line 201), and the
`write` the enqueued job performs when the sequencer runs it (line 202). -/
structure ExecuteRun where
  rejectedNotWritable : Bool
  rejectedNotAuthenticated : Bool
  enqueued : Bool
  jobWrite : WriteAttempt
deriving DecidableEq

/-- One `execute(command)` call (src/src/rcon.js lines 191-207), given the
socket's `writable` predicate and the drawn packet id. -/
def executeRun (s : Session) (writable : Bool) (pid : Int)
    (command : List Nat) : ExecuteRun :=
  { rejectedNotWritable := !writable
    rejectedNotAuthenticated := !s.authenticated
    enqueued := true
    jobWrite := writeSend s.maximumPacketSize Protocol.SERVERDATA_EXECCOMMAND
      pid command }

/-- The packet id drawn on src/src/rcon.js line 193:
`Math.floor(Math.random() * (256 - 1) + 1)`, where the random draw `r` ranges
over `[0, 1)`. The draw is modelled as a rational, which covers every value a
binary floating-point generator can produce. -/
def packetID (r : ℚ) : ℤ := ⌊r * (256 - 1) + 1⌋

/-- C9: every execute call draws a fresh request id with
`Math.floor(Math.random() * (256 - 1) + 1)`, and for every possible value of
the random draw in `[0, 1)` the resulting id lies in the inclusive range
`[1, 255]`. -/
theorem packetID_in_range (r : ℚ) (h0 : 0 ≤ r) (h1 : r < 1) :
    1 ≤ packetID r ∧ packetID r ≤ 255 := by
  unfold packetID
  constructor
  · apply Int.le_floor.mpr
    push_cast
    nlinarith
  · have hlt : ⌊r * (256 - 1) + 1⌋ < 256 := by
      apply Int.floor_lt.mpr
      push_cast
      nlinarith
    omega

/-- Witness for C9: the draw `r = 0` satisfies the hypotheses and yields an id
inside `[1, 255]`. -/
theorem packetID_in_range_witness :
    (0 : ℚ) ≤ 0 ∧ (0 : ℚ) < 1 ∧ 1 ≤ packetID 0 ∧ packetID 0 ≤ 255 := by
  refine ⟨le_refl 0, by norm_num, ?_, ?_⟩
  · exact (packetID_in_range 0 (le_refl 0) (by norm_num)).1
  · exact (packetID_in_range 0 (le_refl 0) (by norm_num)).2

/-- C10: supplying a falsy value for a construction option (zero for the
numeric options, the empty string for the textual ones) is indistinguishable
from omitting the option, and the all-omitted construction yields the
documented defaults (src/src/rcon.js lines 22-56, each option defaulted
through the JavaScript or-operator). -/
theorem construct_falsy_eq_omitted (o : Options) :
    SourceRCON.construct { o with host := some "" } =
      SourceRCON.construct { o with host := none } ∧
    SourceRCON.construct { o with port := some 0 } =
      SourceRCON.construct { o with port := none } ∧
    SourceRCON.construct { o with maximumPacketSize := some 0 } =
      SourceRCON.construct { o with maximumPacketSize := none } ∧
    SourceRCON.construct { o with encoding := some "" } =
      SourceRCON.construct { o with encoding := none } ∧
    SourceRCON.construct { o with timeout := some 0 } =
      SourceRCON.construct { o with timeout := none } ∧
    SourceRCON.construct ⟨none, none, none, none, none⟩ =
      { host := "127.0.0.1", port := 27015, maximumPacketSize := 4096,
        encoding := "ascii", timeout := 1000, authenticated := false } := by
  refine ⟨?_, ?_, ?_, ?_, ?_, rfl⟩ <;>
    simp [SourceRCON.construct, orDefaultNum, orDefaultStr]

/-- C8 records that a constructed session whose `maximumPacketSize` option was
`0` carries the default `4096` instead, because line 42 of src/src/rcon.js
defaults the option through the JavaScript or-operator, which treats `0` as
absent; a 5014-byte encoded packet therefore still trips the size check, even
though the class documentation (and the write-side guard on line 177, shown in
the last conjunct to be inert at an actual field value of `0`) promise that
zero disables the limit. -/
theorem maximumPacketSize_zero_option_not_unlimited :
    (SourceRCON.construct ⟨none, none, some 0, none, none⟩).maximumPacketSize
      = 4096 ∧
    (writeSend
      (SourceRCON.construct ⟨none, none, some 0, none, none⟩).maximumPacketSize
      Protocol.SERVERDATA_EXECCOMMAND 7
      (List.replicate 5000 65)).rejectedPacketTooLong = true ∧
    (∀ (t i : Int) (b : List Nat),
      (writeSend 0 t i b).rejectedPacketTooLong = false) := by
  refine ⟨rfl, ?_, ?_⟩
  · have hm : (SourceRCON.construct
        ⟨none, none, some 0, none, none⟩).maximumPacketSize = 4096 := rfl
    rw [hm]
    have hl : (Packet.encode Protocol.SERVERDATA_EXECCOMMAND 7
        (List.replicate 5000 65)).length = 5014 := by
      rw [Packet.encode_length, List.length_replicate]
    simp only [writeSend, hl]
    decide
  · intro t i b
    simp [writeSend]

/-- Two decoded packets with equal fields are equal. -/
lemma Decoded_eq_of_fields (p q : Packet.Decoded)
    (h1 : p.size = q.size) (h2 : p.id = q.id) (h3 : p.type = q.type)
    (h4 : p.body = q.body) : p = q := by
  cases p
  cases q
  simp_all

/-- C5 as amended: for `type` and `id` in the signed 32-bit range of the wire
format, a body of wire-representable length, free of embedded terminator
bytes, and not ending in a newline byte, `decode (encode type id body)`
returns exactly the original triple with the size field `4 + 4 + len + 2`,
and the encoded frame ends with two trailing zero bytes. (Bodies ending in a
newline byte are excluded because the spec's `decode` trims one trailing
newline.) -/
theorem encode_decode_roundtrip (t i : Int) (b : List Nat)
    (ht1 : -2147483648 ≤ t) (ht2 : t < 2147483648)
    (hi1 : -2147483648 ≤ i) (hi2 : i < 2147483648)
    (hlen : (b.length : Int) + 10 < 2147483648)
    (_hterm : ∀ x ∈ b, x ≠ 0)
    (hnl : b.getLast? ≠ some 10) :
    Packet.decode (Packet.encode t i b) =
      { size := 4 + 4 + (b.length : Int) + 2, id := i, type := t, body := b } ∧
    ∃ pre, Packet.encode t i b = pre ++ [0, 0] := by
  constructor
  · have hb := Packet.decode_encode_body t i b
    rw [Packet.trimOneNewline_of_no_newline b hnl] at hb
    exact Decoded_eq_of_fields _ _ (Packet.decode_encode_size t i b hlen)
      (Packet.decode_encode_id t i b hi1 hi2)
      (Packet.decode_encode_type t i b ht1 ht2) hb
  · refine ⟨Packet.int32ToLE (4 + 4 + (b.length : Int) + 2) ++
      (Packet.int32ToLE i ++ (Packet.int32ToLE t ++ b)), ?_⟩
    simp [Packet.encode, List.append_assoc]

/-- Witness for C5: the spec's own scenario, `encode(3, 1, "mypassword")`
decodes back to exactly that triple with size `20`. -/
theorem encode_decode_roundtrip_witness :
    Packet.decode (Packet.encode 3 1
        [109, 121, 112, 97, 115, 115, 119, 111, 114, 100]) =
      { size := 4 + 4 +
          ((([109, 121, 112, 97, 115, 115, 119, 111, 114, 100] :
            List Nat).length : Int)) + 2,
        id := 1, type := 3,
        body := [109, 121, 112, 97, 115, 115, 119, 111, 114, 100] } :=
  (encode_decode_roundtrip 3 1 _ (by decide) (by decide) (by decide)
    (by decide) (by decide) (by decide) (by decide)).1

/-- Counterexample to C5 as stated: the body `"\n"` contains no terminator
byte, yet it does not survive the round trip, because `decode` trims one
trailing newline. -/
theorem roundtrip_trailing_newline_counterexample :
    (∀ x ∈ ([10] : List Nat), x ≠ 0) ∧
    (Packet.decode (Packet.encode 3 1 [10])).body ≠ [10] := by
  constructor
  · decide
  · decide

/-- C6: when a delivered frame answers a command (non-auth) request, the body
handed back to the caller is the frame's wire body with exactly one trailing
newline stripped: a wire body ending in a newline byte loses exactly that
byte, and a wire body with no trailing newline is returned unchanged. The
stripping happens in the spec-modelled `decode`; the substitution on
src/src/rcon.js line 160 is the identity (`replaceTrailingNewline_eq_self`). -/
theorem command_response_strips_one_newline (writeType rt rid : Int)
    (b : List Nat) (h : writeType ≠ Protocol.SERVERDATA_AUTH) :
    (writeOnData writeType (Packet.encode rt rid b)).result =
      WriteResult.response (Packet.trimOneNewline b) ∧
    (∀ c, b = c ++ [10] → Packet.trimOneNewline b = c) ∧
    (b.getLast? ≠ some 10 → Packet.trimOneNewline b = b) := by
  refine ⟨?_, ?_, ?_⟩
  · simp only [writeOnData]
    rw [if_neg (fun hc => h hc.1), if_neg (fun hc => h hc.1)]
    simp [Packet.decode_encode_body, replaceTrailingNewline_eq_self]
  · intro c hc
    rw [hc]
    exact Packet.trimOneNewline_concat c
  · intro hnl
    exact Packet.trimOneNewline_of_no_newline b hnl

/-- Witness for C6: the spec's scenario, a command-response frame whose wire
body is `"status\n"` resolves to `"status"`, and one with body `"status"`
resolves unchanged. -/
theorem command_response_strips_one_newline_witness :
    (writeOnData 2 (Packet.encode 0 7
        [115, 116, 97, 116, 117, 115, 10])).result =
      WriteResult.response [115, 116, 97, 116, 117, 115] ∧
    (writeOnData 2 (Packet.encode 0 7 [115, 116, 97, 116, 117, 115])).result =
      WriteResult.response [115, 116, 97, 116, 117, 115] := by
  constructor
  · have h := command_response_strips_one_newline 2 0 7
      [115, 116, 97, 116, 117, 115, 10] (by decide)
    rw [h.1]
    decide
  · have h := command_response_strips_one_newline 2 0 7
      [115, 116, 97, 116, 117, 115] (by decide)
    rw [h.1]
    decide

/-- C1: on a not-yet-authenticated session whose AUTH packet passes the size
check, `authenticate` reports success exactly when the first data delivery
received after the AUTH packet is written decodes to a frame of type
`AUTH_RESPONSE` whose id is not `-1`; a decoded type other than
`AUTH_RESPONSE` yields the failure report from that same first delivery; on
success `authenticated` becomes true, and on any failure (a wrong type or a
decoded id of `-1`) `authenticated` stays false and the session forcibly
disconnects (src/src/rcon.js lines 90-108 and 149-157). -/
theorem authenticate_first_delivery_decides (s : Session)
    (password firstDelivery : List Nat)
    (hauth : s.authenticated = false)
    (hsize : s.maximumPacketSize = 0 ∨
      (Packet.encode Protocol.SERVERDATA_AUTH Protocol.ID_AUTH
        password).length ≤ s.maximumPacketSize) :
    ((authenticateRun s password firstDelivery).report = AuthReport.success ↔
      ((Packet.decode firstDelivery).type = Protocol.SERVERDATA_AUTH_RESPONSE ∧
        (Packet.decode firstDelivery).id ≠ -1)) ∧
    ((Packet.decode firstDelivery).type ≠ Protocol.SERVERDATA_AUTH_RESPONSE →
      (authenticateRun s password firstDelivery).report =
        AuthReport.unableToAuthenticate) ∧
    ((authenticateRun s password firstDelivery).report = AuthReport.success →
      (authenticateRun s password firstDelivery).finalAuthenticated = true) ∧
    ((authenticateRun s password firstDelivery).report ≠ AuthReport.success →
      (authenticateRun s password firstDelivery).finalAuthenticated = false ∧
      (authenticateRun s password firstDelivery).disconnected = true) := by
  have hnl : ¬(0 < s.maximumPacketSize ∧ s.maximumPacketSize <
      (Packet.encode Protocol.SERVERDATA_AUTH Protocol.ID_AUTH
        password).length) := by
    rcases hsize with h | h
    · intro hc
      omega
    · intro hc
      omega
  by_cases hc : (Packet.decode firstDelivery).type =
      Protocol.SERVERDATA_AUTH_RESPONSE ∧ (Packet.decode firstDelivery).id ≠ -1
  · have hrun : authenticateRun s password firstDelivery =
        { report := AuthReport.success
          authWriteBytes := Packet.encode Protocol.SERVERDATA_AUTH
            Protocol.ID_AUTH password
          finalAuthenticated := true
          disconnected := false } := by
      simp only [authenticateRun]
      rw [if_neg hnl, if_pos hc]
      simp [hauth]
    rw [hrun]
    refine ⟨iff_of_true rfl hc, ?_, fun _ => rfl, ?_⟩
    · intro hty
      exact absurd hc.1 hty
    · intro hne
      exact absurd rfl hne
  · have hrun : authenticateRun s password firstDelivery =
        { report := AuthReport.unableToAuthenticate
          authWriteBytes := Packet.encode Protocol.SERVERDATA_AUTH
            Protocol.ID_AUTH password
          finalAuthenticated := false
          disconnected := true } := by
      simp only [authenticateRun]
      rw [if_neg hnl, if_neg hc]
      simp [hauth]
    rw [hrun]
    refine ⟨iff_of_false (by simp) hc, fun _ => rfl, ?_, fun _ => ⟨rfl, rfl⟩⟩
    intro habs
    simp at habs

/-- Witness for C1: a fresh default session, password `"abc"`, and a first
delivery decoding to `AUTH_RESPONSE` with id `1` give a success report and
set `authenticated`. -/
theorem authenticate_first_delivery_decides_witness :
    (authenticateRun ⟨"127.0.0.1", 27015, 4096, "ascii", 1000, false⟩
      [97, 98, 99] (Packet.encode 2 1 [])).report = AuthReport.success ∧
    (authenticateRun ⟨"127.0.0.1", 27015, 4096, "ascii", 1000, false⟩
      [97, 98, 99] (Packet.encode 2 1 [])).finalAuthenticated = true := by
  have h := authenticate_first_delivery_decides
    ⟨"127.0.0.1", 27015, 4096, "ascii", 1000, false⟩
    [97, 98, 99] (Packet.encode 2 1 []) rfl (by decide)
  have hs := h.1.mpr (by decide)
  exact ⟨hs, h.2.2.1 hs⟩

/-- C2 as amended: when the encoded packet exceeds a nonzero
`maximumPacketSize`, the `write` promise is rejected with the packet-too-long
error, but the encoded packet is nevertheless still written to the transport,
because the `reject` on src/src/rcon.js line 178 is not followed by a return
and line 182 runs unconditionally. -/
theorem packet_too_long_rejects_but_writes (mps : Nat) (t i : Int)
    (b : List Nat) (h1 : 0 < mps)
    (h2 : mps < (Packet.encode t i b).length) :
    (writeSend mps t i b).rejectedPacketTooLong = true ∧
    (writeSend mps t i b).bytesWritten = Packet.encode t i b := by
  refine ⟨?_, rfl⟩
  simp only [writeSend]
  simp [h1, h2]

/-- Witness for C2: the spec's scenario, `maximumPacketSize = 10` and the
16-byte command `"averylongcommand"`, whose encoded frame has 30 bytes. -/
theorem packet_too_long_rejects_but_writes_witness :
    (writeSend 10 2 55 [97, 118, 101, 114, 121, 108, 111, 110, 103, 99, 111,
      109, 109, 97, 110, 100]).rejectedPacketTooLong = true :=
  (packet_too_long_rejects_but_writes 10 2 55
    [97, 118, 101, 114, 121, 108, 111, 110, 103, 99, 111, 109, 109, 97, 110,
      100] (by decide) (by decide)).1

/-- Counterexample to C2 as stated: with `maximumPacketSize = 10` the
30-byte encoded frame of `"averylongcommand"` trips the packet-too-long
rejection, yet bytes are still written to the transport. -/
theorem packet_too_long_still_writes_counterexample :
    (writeSend 10 2 55 [97, 118, 101, 114, 121, 108, 111, 110, 103, 99, 111,
      109, 109, 97, 110, 100]).rejectedPacketTooLong = true ∧
    (writeSend 10 2 55 [97, 118, 101, 114, 121, 108, 111, 110, 103, 99, 111,
      109, 109, 97, 110, 100]).bytesWritten ≠ [] := by
  constructor
  · decide
  · decide

/-- C3 as amended: `execute` on an unauthenticated session rejects with the
not-authenticated error, but the job is still pushed onto the sequencer
(the `reject` on src/src/rcon.js line 198 is not followed by a return and the
push on line 201 runs unconditionally), and the job, when run, hands the
encoded command packet to the transport. -/
theorem execute_unauthenticated_rejects_but_enqueues (s : Session)
    (writable : Bool) (pid : Int) (command : List Nat)
    (h : s.authenticated = false) :
    (executeRun s writable pid command).rejectedNotAuthenticated = true ∧
    (executeRun s writable pid command).enqueued = true ∧
    (executeRun s writable pid command).jobWrite.bytesWritten =
      Packet.encode Protocol.SERVERDATA_EXECCOMMAND pid command := by
  refine ⟨?_, rfl, rfl⟩
  simp [executeRun, h]

/-- Witness for C3 as amended: a concrete unauthenticated session. -/
theorem execute_unauthenticated_rejects_but_enqueues_witness :
    (executeRun ⟨"127.0.0.1", 27015, 4096, "ascii", 1000, false⟩ true 7
      [97]).rejectedNotAuthenticated = true :=
  (execute_unauthenticated_rejects_but_enqueues
    ⟨"127.0.0.1", 27015, 4096, "ascii", 1000, false⟩ true 7 [97] rfl).1

/-- Counterexample to C3 as stated: on an unauthenticated session the call is
rejected, yet a job is enqueued on the sequencer and its write carries a
nonempty command packet to the transport. -/
theorem execute_unauthenticated_still_enqueues_counterexample :
    (executeRun ⟨"127.0.0.1", 27015, 4096, "ascii", 1000, false⟩ true 7
      [97]).rejectedNotAuthenticated = true ∧
    (executeRun ⟨"127.0.0.1", 27015, 4096, "ascii", 1000, false⟩ true 7
      [97]).enqueued = true ∧
    (executeRun ⟨"127.0.0.1", 27015, 4096, "ascii", 1000, false⟩ true 7
      [97]).jobWrite.bytesWritten ≠ [] := by
  refine ⟨?_, ?_, ?_⟩ <;> decide

/-- C4 as amended: the data handler registered by `write` detaches itself on
the auth-response and command-response branches, but on the auth early-fail
branch (a write of type AUTH answered by a frame not decoding to
`AUTH_RESPONSE`, src/src/rcon.js lines 149-151) the handler returns without
removing itself, so it stays attached and observes later deliveries; the
error listener is removed exactly when the data listener is. -/
theorem onData_listener_removal (writeType : Int) (delivery : List Nat) :
    ((writeOnData writeType delivery).dataRemoved = false ↔
      (writeType = Protocol.SERVERDATA_AUTH ∧
        (Packet.decode delivery).type ≠ Protocol.SERVERDATA_AUTH_RESPONSE)) ∧
    (writeOnData writeType delivery).errorRemoved =
      (writeOnData writeType delivery).dataRemoved := by
  simp only [writeOnData]
  split_ifs with h1 h2 <;> simp_all

/-- Counterexample to C4 as stated: an AUTH write answered by a
`RESPONSE_VALUE` frame fires the handler without removing either the data or
the error listener. -/
theorem auth_earlyfail_handler_not_removed_counterexample :
    (writeOnData Protocol.SERVERDATA_AUTH
      (Packet.encode Protocol.SERVERDATA_RESPONSE_VALUE 5 [])).dataRemoved
        = false ∧
    (writeOnData Protocol.SERVERDATA_AUTH
      (Packet.encode Protocol.SERVERDATA_RESPONSE_VALUE 5 [])).errorRemoved
        = false := by
  constructor
  · decide
  · decide

/-- C7 as amended: calling `authenticate` on an already-authenticated session
rejects immediately with the already-authenticated error, but the AUTH packet
is still written to the transport, because the `reject` on src/src/rcon.js
line 93 is not followed by a return and the `write` on line 96 proceeds. -/
theorem authenticate_already_rejects_but_writes (s : Session)
    (password firstDelivery : List Nat) (h : s.authenticated = true) :
    (authenticateRun s password firstDelivery).report =
      AuthReport.alreadyAuthenticated ∧
    (authenticateRun s password firstDelivery).authWriteBytes =
      Packet.encode Protocol.SERVERDATA_AUTH Protocol.ID_AUTH password := by
  simp only [authenticateRun]
  split_ifs <;> simp [h]

/-- Witness for C7 as amended: a concrete already-authenticated session. -/
theorem authenticate_already_rejects_but_writes_witness :
    (authenticateRun ⟨"127.0.0.1", 27015, 4096, "ascii", 1000, true⟩
      [112, 119] []).report = AuthReport.alreadyAuthenticated :=
  (authenticate_already_rejects_but_writes
    ⟨"127.0.0.1", 27015, 4096, "ascii", 1000, true⟩ [112, 119] [] rfl).1

/-- Counterexample to C7 as stated: on an already-authenticated session the
call rejects with the already-authenticated error, yet the bytes handed to
the transport are the nonempty encoded AUTH packet, refuting that nothing is
sent to the server. -/
theorem authenticate_already_writes_counterexample :
    (authenticateRun ⟨"127.0.0.1", 27015, 4096, "ascii", 1000, true⟩
      [112, 119] (Packet.encode 2 1 [])).report =
        AuthReport.alreadyAuthenticated ∧
    (authenticateRun ⟨"127.0.0.1", 27015, 4096, "ascii", 1000, true⟩
      [112, 119] (Packet.encode 2 1 [])).authWriteBytes ≠ [] := by
  constructor
  · decide
  · decide

end RconSrcds
